import Mathlib

/-!
Shallow embedding of the `aws-ssm-put-on-ec2` action sources
(`src/s3-upload.ts`, `src/ssm-transfer.ts`, and the main `run` entry),
together with theorems about the behaviour of the embedded code.

External effects (filesystem stat/read, the S3 put, the SSM send-command
call and the SSM status queries) are modelled as oracles supplied to each
function: the embedded code consumes the oracle's scripted replies exactly
where the TypeScript performs the corresponding call, and every trace
records how many S3 puts, SSM status queries, and inter-poll sleeps
occurred.  The optional `region` argument of the TypeScript functions only
configures the AWS client objects and has no behavioural effect, so it is
not part of the embedding.
-/

/-- The interface `S3UploadResult` from `types.ts`: bucket, key and the
composed `s3://` locator. -/
structure S3UploadResult where
  bucket : String
  key : String
  s3Uri : String
deriving DecidableEq

/-- The interface `SSMCommandResult` from `types.ts`: command id, raw status
string and optional captured standard output. -/
structure SSMCommandResult where
  commandId : String
  status : String
  output : Option String
deriving DecidableEq

/-- The interface `ActionInputs` from `types.ts` (plus the optional region
input read by `getInputs`).  The TypeScript field `instance` is a reserved
word in Lean, so it is called `instanceId` here. -/
structure ActionInputs where
  localPath : String
  remotePath : String
  instanceId : String
  intermediateS3 : String
  region : Option String
deriving DecidableEq

/-- JS truthy-or (`a || b`) on an optional string: `undefined` and the empty
string both fall back to `b`, exactly as in
`invocation.StandardOutputContent || ""` and
`invocation.StandardErrorContent || "No error output"`. -/
def jsOr (s : Option String) (fallback : String) : String :=
  match s with
  | some v => if v = "" then fallback else v
  | none => fallback

/-- Decimal rendering of a natural number, as produced by JS template
interpolation of the integer `Date.now()` value in
  const key = `github-actions-transfer/(timestamp)-(filename)`.
Rendered most-significant digit first, with `0` rendered as `"0"`. -/
def natToString (n : Nat) : String :=
  if n = 0 then "0"
  else String.mk (((Nat.digits 10 n).map Nat.digitChar).reverse)

/-- Node `path.basename` (posix): drop trailing separators, then keep the
final path component. -/
def basename (p : String) : String :=
  String.mk (((p.data.reverse.dropWhile (fun c => c = '/')).takeWhile
    (fun c => c != '/')).reverse)

/-- The `bucketName.replace(/^s3:\/\//, "")` normalization at the top of
`uploadFileToS3`: strip one leading `s3://` scheme marker if present
(modelled on the character list of the string). -/
def stripS3Scheme (bucketName : String) : String :=
  if bucketName.data.take 5 = "s3://".data then String.mk (bucketName.data.drop 5)
  else bucketName

/-- The staging-key derivation in `uploadFileToS3`:
`github-actions-transfer/` followed by the millisecond timestamp, a dash and
the basename of the local path. -/
def s3Key (now : Nat) (localPath : String) : String :=
  "github-actions-transfer/" ++ natToString now ++ "-" ++ basename localPath

/-- Oracle outcome of the `statSync(localPath)` call: either the call throws
(with an error message) or it returns stats whose `isFile()` is as given. -/
inductive StatReply where
  | failure (msg : String)
  | stats (isFile : Bool)
deriving DecidableEq

/-- Oracle for the external effects of `uploadFileToS3`: the stat call, the
`readFileSync` call, the single S3 put, and the `Date.now()` clock. -/
structure S3Env where
  stat : StatReply
  readResult : Except String String
  putResult : Except String Unit
  now : Nat

/-- Result of `uploadFileToS3` together with the number of S3 put requests
that were issued. -/
structure UploadTrace where
  result : Except String S3UploadResult
  puts : Nat

/-- Embedding of `uploadFileToS3` from `s3-upload.ts`.  The first try/catch
wraps both a throwing `statSync` and the explicit `not a file` throw into a
`Cannot access local file` error; the second try/catch wraps a failing
`readFileSync` or a failing put into a `Failed to upload file to S3` error.
A put is only issued after the file content has been read. -/
def uploadFileToS3 (env : S3Env) (localPath bucketName : String) : UploadTrace :=
  let bucket := stripS3Scheme bucketName
  match env.stat with
  | .failure m =>
    ⟨.error ("Cannot access local file: " ++ localPath ++ ". " ++ m), 0⟩
  | .stats isFile =>
    if !isFile then
      ⟨.error ("Cannot access local file: " ++ localPath ++ ". "
        ++ localPath ++ " is not a file"), 0⟩
    else
      let key := s3Key env.now localPath
      match env.readResult with
      | .error m => ⟨.error ("Failed to upload file to S3: " ++ m), 0⟩
      | .ok _content =>
        match env.putResult with
        | .error m => ⟨.error ("Failed to upload file to S3: " ++ m), 1⟩
        | .ok _ => ⟨.ok ⟨bucket, key, "s3://" ++ bucket ++ "/" ++ key⟩, 1⟩

/-- Oracle outcome of one SSM `GetCommandInvocation` poll inside
`waitForCommandCompletion`: the call can throw the `InvocationDoesNotExist`
error (the command is not yet visible), throw some other error, or return an
invocation record with an optional status string and optional captured
stdout/stderr. -/
inductive PollReply where
  | notVisible
  | sendFailure (msg : String)
  | invocation (status : Option String) (stdout stderr : Option String)
deriving DecidableEq

/-- The distinct failures `waitForCommandCompletion` can propagate, each
corresponding to one throw site in `ssm-transfer.ts`. -/
inductive PollErr where
  | remoteExec (status : String) (errorOutput : String)
  | unexpected (statusText : String)
  | timeout (seconds : ℚ)
  | sendFailure (msg : String)
deriving DecidableEq

/-- Rendering of the JS number `(maxAttempts * delayMs) / 1000` interpolated
into the timeout message; the integral case (the only one this development
ever exercises) renders as the plain integer, as JS does. -/
def secondsText (q : ℚ) : String :=
  if q.den = 1 then natToString q.num.toNat else toString q

/-- JS `status.toLowerCase()` on the ASCII status strings involved: map each
character to its lower-case form. -/
def jsToLowerCase (s : String) : String :=
  String.mk (s.data.map Char.toLower)

/-- The `error.message` string attached to each throw site of
`waitForCommandCompletion`. -/
def PollErr.message : PollErr → String
  | .remoteExec st errOut => "SSM command " ++ jsToLowerCase st ++ ": " ++ errOut
  | .unexpected stText => "Unexpected SSM command status: " ++ stText
  | .timeout secs =>
    "SSM command did not complete within " ++ secondsText secs ++ " seconds"
  | .sendFailure m => m

/-- Outcome of the poll loop together with the number of status queries
issued and the number of `sleep(delayMs)` suspensions performed. -/
structure PollTrace where
  outcome : Except PollErr SSMCommandResult
  queries : Nat
  delays : Nat

/-- One iteration of the `for (let attempt = 1; attempt <= maxAttempts; ...)`
loop of `waitForCommandCompletion`, recursing on the remaining attempts.
Errors thrown inside the try block (terminal failure, unexpected status) have
`error.name = "Error"`, so the catch clause rethrows them unchanged; only the
`InvocationDoesNotExist` condition takes the retry branch of the catch.  The
loop sleeps after every non-terminal poll and after every not-yet-visible
poll, then continues; falling out of the loop throws the timeout error
stating `(maxAttempts * delayMs) / 1000` seconds. -/
def pollAux (replies : Nat → PollReply) (commandId : String)
    (maxAttempts delayMs attempt remaining queries delays : Nat) : PollTrace :=
  match remaining with
  | 0 => ⟨.error (.timeout ((maxAttempts * delayMs : ℚ) / 1000)), queries, delays⟩
  | r + 1 =>
    match replies attempt with
    | .sendFailure m => ⟨.error (.sendFailure m), queries + 1, delays⟩
    | .notVisible =>
      pollAux replies commandId maxAttempts delayMs (attempt + 1) r
        (queries + 1) (delays + 1)
    | .invocation st? stdout stderr =>
      match st? with
      | none => ⟨.error (.unexpected "undefined"), queries + 1, delays⟩
      | some st =>
        if st = "Success" then
          ⟨.ok ⟨commandId, st, some (jsOr stdout "")⟩, queries + 1, delays⟩
        else if st = "Failed" ∨ st = "Cancelled" then
          ⟨.error (.remoteExec st (jsOr stderr "No error output")),
            queries + 1, delays⟩
        else if st = "InProgress" ∨ st = "Pending" ∨ st = "Delayed" then
          pollAux replies commandId maxAttempts delayMs (attempt + 1) r
            (queries + 1) (delays + 1)
        else
          ⟨.error (.unexpected st), queries + 1, delays⟩

/-- Embedding of `waitForCommandCompletion`: run the loop from attempt 1,
with `maxAttempts` iterations available. -/
def waitForCommandCompletion (replies : Nat → PollReply) (commandId : String)
    (maxAttempts delayMs : Nat) : PollTrace :=
  pollAux replies commandId maxAttempts delayMs 1 maxAttempts 0 0

/-- Oracle outcome of the `SendCommandCommand` submission in
`transferFileViaSSM`: the call throws, or returns a response whose
`Command?.CommandId` is the given optional string. -/
inductive SendReply where
  | failure (msg : String)
  | ok (commandId : Option String)
deriving DecidableEq

/-- Oracle for the external effects of `transferFileViaSSM`: the single
send-command submission and the scripted replies of the status polls
(indexed by attempt number). -/
structure SSMEnv where
  send : SendReply
  replies : Nat → PollReply

/-- The three-line shell script built at the top of `transferFileViaSSM`. -/
def buildCommands (s3Uri remotePath : String) : List String :=
  ["mkdir -p $(dirname " ++ remotePath ++ ")",
   "aws s3 cp " ++ s3Uri ++ " " ++ remotePath,
   "echo \"File transferred successfully to " ++ remotePath ++ "\""]

/-- Result of `transferFileViaSSM`, the commands it submitted, and the
number of status queries and sleeps performed by the poll loop. -/
structure TransferTrace where
  commands : List String
  result : Except String SSMCommandResult
  statusQueries : Nat
  delays : Nat

/-- Embedding of `transferFileViaSSM`.  The surrounding try/catch wraps every
error thrown inside it — a failing submission, a missing `CommandId` (the JS
check `!response.Command?.CommandId` also treats an empty id as missing), or
any failure of `waitForCommandCompletion` — into
`Failed to transfer file via SSM: (message)`.  The poller is called with the
default budget `maxAttempts = 60`, `delayMs = 2000`. -/
def transferFileViaSSM (env : SSMEnv) (instanceId : String)
    (s3Result : S3UploadResult) (remotePath : String) : TransferTrace :=
  let commands := buildCommands s3Result.s3Uri remotePath
  match env.send with
  | .failure m =>
    ⟨commands, .error ("Failed to transfer file via SSM: " ++ m), 0, 0⟩
  | .ok cid? =>
    if cid? = none ∨ cid? = some "" then
      ⟨commands, .error ("Failed to transfer file via SSM: "
        ++ "SSM command was sent but no CommandId was returned"), 0, 0⟩
    else
      let t := waitForCommandCompletion env.replies (cid?.getD "") 60 2000
      match t.outcome with
      | .ok r => ⟨commands, .ok r, t.queries, t.delays⟩
      | .error e =>
        ⟨commands, .error ("Failed to transfer file via SSM: " ++ e.message),
          t.queries, t.delays⟩

/-- Outcome of the `run` entry point: it either completes normally or calls
`core.setFailed` with the caught error's message. -/
inductive RunOutcome where
  | success
  | failed (msg : String)
deriving DecidableEq

/-- Oracle for a whole invocation: the upload-stage effects and the
SSM-stage effects. -/
structure World where
  s3 : S3Env
  ssm : SSMEnv

/-- Outcome of `run` together with the puts and status queries performed. -/
structure RunTrace where
  outcome : RunOutcome
  puts : Nat
  statusQueries : Nat
deriving DecidableEq

/-- Embedding of the `run` entry point: upload, then transfer (discarding the
`SSMCommandResult`), completing with no return value; any error's message
goes to `core.setFailed`. -/
def run (w : World) (inputs : ActionInputs) : RunTrace :=
  let up := uploadFileToS3 w.s3 inputs.localPath inputs.intermediateS3
  match up.result with
  | .error m => ⟨.failed m, up.puts, 0⟩
  | .ok s3Result =>
    let tr := transferFileViaSSM w.ssm inputs.instanceId s3Result inputs.remotePath
    match tr.result with
    | .error m => ⟨.failed m, up.puts, tr.statusQueries⟩
    | .ok _ => ⟨.success, up.puts, tr.statusQueries⟩

/-- A poll reply on which the loop of `waitForCommandCompletion` continues to
the next attempt: the not-yet-visible condition or one of the three
non-terminal statuses. -/
def PollReply.isRetryable : PollReply → Bool
  | .notVisible => true
  | .invocation (some st) _ _ =>
    st == "InProgress" || st == "Pending" || st == "Delayed"
  | _ => false

/-- A poll reply carrying one of the three non-terminal statuses. -/
def PollReply.isNonTerminalStatus : PollReply → Bool
  | .invocation (some st) _ _ =>
    st == "InProgress" || st == "Pending" || st == "Delayed"
  | _ => false

/-- Skipping a run of retryable polls: if the `n` polls starting at `attempt`
are all retryable, the loop advances `n` attempts, issuing `n` status queries
and `n` sleeps. -/
theorem pollAux_skip (replies : Nat → PollReply) (cid : String) (m dms : Nat) :
    ∀ (n attempt r q d : Nat),
      (∀ i, attempt ≤ i → i < attempt + n → (replies i).isRetryable = true) →
      pollAux replies cid m dms attempt (n + r) q d =
        pollAux replies cid m dms (attempt + n) r (q + n) (d + n) := by
  intro n
  induction n with
  | zero => intro attempt r q d _h; simp
  | succ k ih =>
    intro attempt r q d h
    have hfirst : (replies attempt).isRetryable = true := h attempt le_rfl (by omega)
    have hr : (k + 1) + r = (k + r) + 1 := by omega
    rw [hr]
    rw [pollAux]
    cases hrep : replies attempt with
    | notVisible =>
      simp only []
      have := ih (attempt + 1) r (q + 1) (d + 1) (by
        intro i h1 h2
        exact h i (by omega) (by omega))
      rw [this]
      congr 1 <;> omega
    | sendFailure msg =>
      rw [hrep] at hfirst
      simp [PollReply.isRetryable] at hfirst
    | invocation st? o e =>
      rw [hrep] at hfirst
      match st? with
      | none => simp [PollReply.isRetryable] at hfirst
      | some st =>
        simp only [PollReply.isRetryable] at hfirst
        have hst : st = "InProgress" ∨ st = "Pending" ∨ st = "Delayed" := by
          rcases Bool.or_eq_true_iff.1 hfirst with h1 | h1
          · rcases Bool.or_eq_true_iff.1 h1 with h2 | h2
            · exact Or.inl (by simpa using h2)
            · exact Or.inr (Or.inl (by simpa using h2))
          · exact Or.inr (Or.inr (by simpa using h1))
        have hne1 : ¬ (st = "Success") := by rcases hst with h1|h1|h1 <;> simp [h1]
        have hne2 : ¬ (st = "Failed" ∨ st = "Cancelled") := by
          rcases hst with h1|h1|h1 <;> simp [h1]
        simp only []
        rw [if_neg hne1, if_neg hne2, if_pos hst]
        have := ih (attempt + 1) r (q + 1) (d + 1) (by
          intro i h1 h2
          exact h i (by omega) (by omega))
        rw [this]
        congr 1 <;> omega

/-- A poll reply with a non-terminal status is retryable. -/
theorem retryable_of_nonTerminal (r : PollReply) (h : r.isNonTerminalStatus = true) :
    r.isRetryable = true := by
  cases r with
  | notVisible => rfl
  | sendFailure m => simp [PollReply.isNonTerminalStatus] at h
  | invocation st? o e =>
    cases st? with
    | none => simp [PollReply.isNonTerminalStatus] at h
    | some st => simpa [PollReply.isNonTerminalStatus, PollReply.isRetryable] using h

/-- `Nat.digitChar` is injective on decimal digits. -/
theorem digitChar_inj_lt10 :
    ∀ d, d < 10 → ∀ e, e < 10 → Nat.digitChar d = Nat.digitChar e → d = e := by decide

/-- Mapping `Nat.digitChar` over lists of decimal digits is injective. -/
theorem map_digitChar_inj : ∀ (l1 l2 : List Nat), (∀ x ∈ l1, x < 10) → (∀ x ∈ l2, x < 10) →
    l1.map Nat.digitChar = l2.map Nat.digitChar → l1 = l2 := by
  intro l1
  induction l1 with
  | nil => intro l2 _ _ h; cases l2 with
    | nil => rfl
    | cons b t => simp at h
  | cons a t ih =>
    intro l2 h1 h2 h
    cases l2 with
    | nil => simp at h
    | cons b t2 =>
      simp only [List.map_cons, List.cons.injEq] at h
      have ha : a = b := digitChar_inj_lt10 a (h1 a (by simp)) b (h2 b (by simp)) h.1
      have ht : t = t2 := ih t2 (fun x hx => h1 x (by simp [hx])) (fun x hx => h2 x (by simp [hx])) h.2
      rw [ha, ht]

/-- The decimal rendering of a natural number determines the number. -/
theorem natToString_injective : Function.Injective natToString := by
  intro a b h
  unfold natToString at h
  by_cases ha : a = 0 <;> by_cases hb : b = 0
  · omega
  · rw [if_pos ha, if_neg hb] at h
    exfalso
    have hdata : ['0'] = ((Nat.digits 10 b).map Nat.digitChar).reverse := by
      have := congrArg String.data h
      simpa using this
    have hmap : (Nat.digits 10 b).map Nat.digitChar = ['0'] := by
      have := congrArg List.reverse hdata
      simpa using this.symm
    have hdig : Nat.digits 10 b = [0] := by
      apply map_digitChar_inj
      · intro x hx; exact Nat.digits_lt_base (by norm_num) hx
      · intro x hx; simp at hx; omega
      · simpa using hmap
    have h0 := Nat.ofDigits_digits 10 b
    rw [hdig] at h0
    simp [Nat.ofDigits] at h0
    exact hb h0.symm
  · rw [if_neg ha, if_pos hb] at h
    exfalso
    have hdata : ((Nat.digits 10 a).map Nat.digitChar).reverse = ['0'] := by
      have := congrArg String.data h
      simpa using this
    have hmap : (Nat.digits 10 a).map Nat.digitChar = ['0'] := by
      have := congrArg List.reverse hdata
      simpa using this
    have hdig : Nat.digits 10 a = [0] := by
      apply map_digitChar_inj
      · intro x hx; exact Nat.digits_lt_base (by norm_num) hx
      · intro x hx; simp at hx; omega
      · simpa using hmap
    have h0 := Nat.ofDigits_digits 10 a
    rw [hdig] at h0
    simp [Nat.ofDigits] at h0
    exact ha h0.symm
  · rw [if_neg ha, if_neg hb] at h
    have hdata : ((Nat.digits 10 a).map Nat.digitChar).reverse =
        ((Nat.digits 10 b).map Nat.digitChar).reverse := by
      have := congrArg String.data h
      simpa using this
    have hmap := List.reverse_injective hdata
    have hdig : Nat.digits 10 a = Nat.digits 10 b := by
      apply map_digitChar_inj
      · intro x hx; exact Nat.digits_lt_base (by norm_num) hx
      · intro x hx; exact Nat.digits_lt_base (by norm_num) hx
      · exact hmap
    exact Nat.digits.injective 10 hdig

/-- Distinct timestamps derive distinct staging keys for the same path. -/
theorem s3Key_ne (n1 n2 : Nat) (p : String) (h : n1 ≠ n2) : s3Key n1 p ≠ s3Key n2 p := by
  intro heq
  apply h
  apply natToString_injective
  unfold s3Key at heq
  have hdata := congrArg String.data heq
  simp only [String.data_append, List.append_assoc] at hdata
  have h1 := List.append_cancel_left hdata
  have h2 := List.append_cancel_right h1
  cases hn1 : natToString n1 with
  | mk d1 => cases hn2 : natToString n2 with
    | mk d2 =>
      rw [hn1, hn2] at h2
      simp at h2
      rw [h2]

/-- The basename extracted by the key generator contains no path separator. -/
theorem basename_no_slash (p : String) : ∀ c ∈ (basename p).data, c ≠ '/' := by
  intro c hc
  unfold basename at hc
  simp only [List.mem_reverse] at hc
  have := List.mem_takeWhile_imp hc
  simpa using this

/-- Every staging key ends with the basename of the local path. -/
theorem s3Key_endsWith (n : Nat) (p : String) :
    ∃ pre, s3Key n p = pre ++ basename p :=
  ⟨"github-actions-transfer/" ++ natToString n ++ "-", by simp [s3Key, String.append_assoc]⟩

/-- Every error produced by `transferFileViaSSM` carries the
`Failed to transfer file via SSM:` wrapping added by its catch-all. -/
theorem transferError_shape (env : SSMEnv) (instanceId : String)
    (s3Result : S3UploadResult) (remotePath : String) (m : String)
    (h : (transferFileViaSSM env instanceId s3Result remotePath).result = .error m) :
    ∃ inner, m = "Failed to transfer file via SSM: " ++ inner := by
  unfold transferFileViaSSM at h
  cases henv : env.send with
  | failure m0 =>
    rw [henv] at h
    simp only [] at h
    exact ⟨m0, by injection h with h0; exact h0.symm⟩
  | ok cid? =>
    rw [henv] at h
    simp only [] at h
    by_cases hc : cid? = none ∨ cid? = some ""
    · rw [if_pos hc] at h
      exact ⟨"SSM command was sent but no CommandId was returned", by
        injection h with h0
        exact h0.symm⟩
    · rw [if_neg hc] at h
      cases hout : (waitForCommandCompletion env.replies (cid?.getD "") 60 2000).outcome with
      | ok r => rw [hout] at h; simp at h
      | error e =>
        rw [hout] at h
        simp only [] at h
        exact ⟨e.message, by injection h with h0; exact h0.symm⟩

/-- C1: for every poll-result sequence yielding the not-yet-visible condition
on the first poll, then `Pending`, then `InProgress`, then `Success` with
captured stdout `"ok"`, and every attempt budget of at least 4,
`waitForCommandCompletion` returns a result with status `Success` and output
`"ok"` after exactly 4 status queries and 3 inter-poll delays: the
not-yet-visible condition consumes one attempt and one delay exactly like a
genuine in-progress poll. -/
theorem awaitSuccessAfterTransientPolls (replies : Nat → PollReply) (commandId : String)
    (maxAttempts delayMs : Nat)
    (h1 : replies 1 = .notVisible)
    (h2 : ∃ o e, replies 2 = .invocation (some "Pending") o e)
    (h3 : ∃ o e, replies 3 = .invocation (some "InProgress") o e)
    (h4 : ∃ e, replies 4 = .invocation (some "Success") (some "ok") e)
    (hm : 4 ≤ maxAttempts) :
    waitForCommandCompletion replies commandId maxAttempts delayMs =
      ⟨.ok ⟨commandId, "Success", some "ok"⟩, 4, 3⟩ := by
  obtain ⟨o2, e2, h2⟩ := h2
  obtain ⟨o3, e3, h3⟩ := h3
  obtain ⟨e4, h4⟩ := h4
  obtain ⟨k, hk⟩ : ∃ k, maxAttempts = 3 + (k + 1) := ⟨maxAttempts - 4, by omega⟩
  unfold waitForCommandCompletion
  rw [hk]
  rw [pollAux_skip replies commandId (3 + (k + 1)) delayMs 3 1 (k + 1) 0 0 (by
    intro i hi1 hi2
    interval_cases i
    · rw [h1]; rfl
    · rw [h2]; rfl
    · rw [h3]; rfl)]
  rw [pollAux]
  rw [show (1 + 3 : Nat) = 4 from rfl] at *
  rw [h4]
  simp [jsOr]

/-- The scripted poll sequence of the C1 witness: not-yet-visible, `Pending`,
`InProgress`, then `Success` with stdout `"ok"`. -/
def c1Script : Nat → PollReply := fun a =>
  if a = 1 then .notVisible
  else if a = 2 then .invocation (some "Pending") none none
  else if a = 3 then .invocation (some "InProgress") none none
  else .invocation (some "Success") (some "ok") none

/-- C1 witness: the scripted sequence under the default budget resolves to
`Success` with output `"ok"` after 4 queries and 3 delays. -/
theorem awaitSuccessWitness :
    waitForCommandCompletion c1Script "cmd-1" 60 2000 =
      ⟨.ok ⟨"cmd-1", "Success", some "ok"⟩, 4, 3⟩ :=
  awaitSuccessAfterTransientPolls c1Script "cmd-1" 60 2000 rfl
    ⟨none, none, rfl⟩ ⟨none, none, rfl⟩ ⟨none, rfl⟩ (by omega)

/-- C2: if every status query reports a non-terminal status (`Pending`,
`Delayed` or `InProgress`) throughout the budget, the poller performs exactly
`maxAttempts` status queries and fails with the timeout error stating the
elapsed budget of `maxAttempts * delayMs / 1000` seconds; no further status
query occurs after the budget is exhausted. -/
theorem awaitTimeoutWhenNonTerminal (replies : Nat → PollReply) (commandId : String)
    (maxAttempts delayMs : Nat)
    (hpos : 1 ≤ maxAttempts)
    (h : ∀ i, 1 ≤ i → i ≤ maxAttempts → (replies i).isNonTerminalStatus = true) :
    waitForCommandCompletion replies commandId maxAttempts delayMs =
      ⟨.error (.timeout ((maxAttempts * delayMs : ℚ) / 1000)),
        maxAttempts, maxAttempts⟩ := by
  unfold waitForCommandCompletion
  have hskip := pollAux_skip replies commandId maxAttempts delayMs maxAttempts 1 0 0 0 (by
    intro i hi1 hi2
    exact retryable_of_nonTerminal _ (h i hi1 (by omega)))
  rw [Nat.add_zero] at hskip
  rw [hskip]
  rw [pollAux]
  simp

/-- C2 witness: a permanently in-progress command under the default budget
times out after exactly 60 queries, stating 60 * 2000 / 1000 = 120 seconds. -/
theorem awaitTimeoutWitness :
    waitForCommandCompletion (fun _ => .invocation (some "InProgress") none none)
        "cmd-1" 60 2000 =
      ⟨.error (.timeout 120), 60, 60⟩ := by
  have := awaitTimeoutWhenNonTerminal (fun _ => .invocation (some "InProgress") none none)
    "cmd-1" 60 2000 (by omega) (by intro i hi1 hi2; rfl)
  rw [this]
  norm_num

/-- The scripted poll sequence of the C3 counterexample: the status string is
`"FAILED"`, upper-cased, with captured stderr `"disk full"`. -/
def c3Replies : Nat → PollReply :=
  fun _ => .invocation (some "FAILED") none (some "disk full")

/-- C3 counterexample: the status comparison in the code is case-sensitive,
so status `"FAILED"` does not produce the remote-execution failure the claim
requires; it falls through to the unexpected-status branch instead. -/
theorem c3UppercaseFailedIsUnexpected :
    waitForCommandCompletion c3Replies "cmd-1" 60 2000 =
      ⟨.error (.unexpected "FAILED"), 1, 0⟩
    ∧ ¬ ∃ st eo, (waitForCommandCompletion c3Replies "cmd-1" 60 2000).outcome =
        .error (.remoteExec st eo) := by
  refine ⟨rfl, ?_⟩
  rintro ⟨st, eo, h⟩
  rw [show (waitForCommandCompletion c3Replies "cmd-1" 60 2000).outcome =
    .error (.unexpected "FAILED") from rfl] at h
  simp at h

/-- C3 (amended): for every poll reporting status exactly `Failed` or
`Cancelled` (case-sensitively), after any run of retryable polls, the poller
fails immediately — the failing poll is the last status query and adds no
delay — with the remote-execution error carrying the captured stderr, or the
literal `No error output` marker when none was captured. -/
theorem awaitRemoteExecFailure (replies : Nat → PollReply) (commandId : String)
    (maxAttempts delayMs a : Nat) (st : String) (out err : Option String)
    (ha1 : 1 ≤ a) (ham : a ≤ maxAttempts)
    (hpre : ∀ i, 1 ≤ i → i < a → (replies i).isRetryable = true)
    (hst : replies a = .invocation (some st) out err)
    (hFC : st = "Failed" ∨ st = "Cancelled") :
    waitForCommandCompletion replies commandId maxAttempts delayMs =
      ⟨.error (.remoteExec st (jsOr err "No error output")), a, a - 1⟩ := by
  obtain ⟨r, hr⟩ : ∃ r, maxAttempts = (a - 1) + (r + 1) := ⟨maxAttempts - a, by omega⟩
  unfold waitForCommandCompletion
  rw [hr]
  rw [pollAux_skip replies commandId ((a - 1) + (r + 1)) delayMs (a - 1) 1 (r + 1) 0 0 (by
    intro i hi1 hi2
    exact hpre i hi1 (by omega))]
  rw [show 1 + (a - 1) = a by omega]
  rw [pollAux]
  rw [hst]
  have hne1 : ¬ (st = "Success") := by rcases hFC with h1 | h1 <;> simp [h1]
  simp only []
  rw [if_neg hne1, if_pos hFC]
  simp
  omega

/-- C3 witness: status `Failed` with stderr `disk full` fails on the very
first poll with the remote-execution error carrying `disk full`, whose
message is `SSM command failed: disk full`. -/
theorem awaitRemoteExecFailureWitness :
    waitForCommandCompletion (fun _ => .invocation (some "Failed") none (some "disk full"))
        "cmd-1" 60 2000 =
      ⟨.error (.remoteExec "Failed" "disk full"), 1, 0⟩
    ∧ (PollErr.remoteExec "Failed" "disk full").message =
        "SSM command failed: " ++ "disk full" := by
  constructor
  · have := awaitRemoteExecFailure
      (fun _ => .invocation (some "Failed") none (some "disk full")) "cmd-1" 60 2000 1
      "Failed" none (some "disk full") (by omega) (by omega)
      (by intro i hi1 hi2; exact absurd (Nat.lt_of_le_of_lt hi1 hi2) (Nat.lt_irrefl 1))
      rfl (Or.inl rfl)
    simpa [jsOr] using this
  · decide

/-- C4: for every poll reporting a status outside the closed set `Pending`,
`Delayed`, `InProgress`, `Success`, `Failed`, `Cancelled`, after any run of
retryable polls, the poller fails immediately with the unexpected-status
error: the offending poll is the last status query, and no inter-poll delay
follows it. -/
theorem awaitUnexpectedStatus (replies : Nat → PollReply) (commandId : String)
    (maxAttempts delayMs a : Nat) (st : String) (out err : Option String)
    (ha1 : 1 ≤ a) (ham : a ≤ maxAttempts)
    (hpre : ∀ i, 1 ≤ i → i < a → (replies i).isRetryable = true)
    (hst : replies a = .invocation (some st) out err)
    (hnot : st ≠ "Pending" ∧ st ≠ "Delayed" ∧ st ≠ "InProgress" ∧
      st ≠ "Success" ∧ st ≠ "Failed" ∧ st ≠ "Cancelled") :
    waitForCommandCompletion replies commandId maxAttempts delayMs =
      ⟨.error (.unexpected st), a, a - 1⟩ := by
  obtain ⟨hP, hD, hI, hS, hF, hC⟩ := hnot
  obtain ⟨r, hr⟩ : ∃ r, maxAttempts = (a - 1) + (r + 1) := ⟨maxAttempts - a, by omega⟩
  unfold waitForCommandCompletion
  rw [hr]
  rw [pollAux_skip replies commandId ((a - 1) + (r + 1)) delayMs (a - 1) 1 (r + 1) 0 0 (by
    intro i hi1 hi2
    exact hpre i hi1 (by omega))]
  rw [show 1 + (a - 1) = a by omega]
  rw [pollAux]
  rw [hst]
  simp only []
  rw [if_neg hS, if_neg (by tauto : ¬ (st = "Failed" ∨ st = "Cancelled")),
    if_neg (by tauto : ¬ (st = "InProgress" ∨ st = "Pending" ∨ st = "Delayed"))]
  simp
  omega

/-- C4 witness: the unknown status `Throttled` on the first poll fails
immediately with the unexpected-status error, after exactly one query and no
delay. -/
theorem awaitUnexpectedStatusWitness :
    waitForCommandCompletion (fun _ => .invocation (some "Throttled") none none)
        "cmd-1" 60 2000 =
      ⟨.error (.unexpected "Throttled"), 1, 0⟩ := by
  have := awaitUnexpectedStatus
    (fun _ => .invocation (some "Throttled") none none) "cmd-1" 60 2000 1
    "Throttled" none none (by omega) (by omega)
    (by intro i hi1 hi2; exact absurd (Nat.lt_of_le_of_lt hi1 hi2) (Nat.lt_irrefl 1))
    rfl (by refine ⟨?_, ?_, ?_, ?_, ?_, ?_⟩ <;> decide)
  simpa using this

/-- The world of the C5 counterexample: upload succeeds, the command is
dispatched, and the first poll reports status `Failed` with stderr
`disk full`. -/
def w5 : World :=
  ⟨⟨.stats true, .ok "artifact-bytes", .ok (), 0⟩,
   ⟨.ok (some "cmd-1"), fun _ => .invocation (some "Failed") none (some "disk full")⟩⟩

/-- The inputs of the C5 counterexample. -/
def inputs5 : ActionInputs := ⟨"a.txt", "/srv/app/a.txt", "i-abc", "bucket-a", none⟩

/-- C5 counterexample: a Completion Poller failure does not reach the outer
boundary unmodified — the poller raises `SSM command failed: disk full`, but
`run` reports `Failed to transfer file via SSM: SSM command failed: disk
full`, wrapped by the SSM transfer layer's catch-all. -/
theorem runWrapsPollerError :
    run w5 inputs5 =
      ⟨.failed "Failed to transfer file via SSM: SSM command failed: disk full", 1, 1⟩
    ∧ "Failed to transfer file via SSM: SSM command failed: disk full" ≠
        "SSM command failed: disk full" := by
  constructor
  · rfl
  · decide

/-- C5 (amended): any failure aborts the remaining stages — an Object Stager
failure reaches the outer boundary unmodified and issues no status query,
while a failure inside the SSM transfer layer (dispatch or polling) reaches
the boundary with `Failed to transfer file via SSM: ` prefixed to the failing
stage's own message. -/
theorem runErrorPropagation (w : World) (inputs : ActionInputs) :
    (∀ m, (uploadFileToS3 w.s3 inputs.localPath inputs.intermediateS3).result = .error m →
      run w inputs =
        ⟨.failed m, (uploadFileToS3 w.s3 inputs.localPath inputs.intermediateS3).puts, 0⟩)
    ∧ (∀ s m, (uploadFileToS3 w.s3 inputs.localPath inputs.intermediateS3).result = .ok s →
        (transferFileViaSSM w.ssm inputs.instanceId s inputs.remotePath).result = .error m →
        (run w inputs).outcome = .failed m
        ∧ ∃ inner, m = "Failed to transfer file via SSM: " ++ inner) := by
  constructor
  · intro m hm
    unfold run
    dsimp only
    rw [hm]
  · intro s m hs hm
    constructor
    · unfold run
      dsimp only
      rw [hs]
      dsimp only
      rw [hm]
    · exact transferError_shape w.ssm inputs.instanceId s inputs.remotePath m hm

/-- The world of the C5 witness: the stat call fails, so staging fails before
anything else happens. -/
def w5b : World :=
  ⟨⟨.failure "ENOENT: no such file or directory", .ok "artifact-bytes", .ok (), 0⟩,
   ⟨.ok (some "cmd-1"), fun _ => .invocation (some "Success") (some "ok") none⟩⟩

/-- C5 witness: a staging failure reaches the boundary unmodified, with no
put and no status query performed afterwards. -/
theorem runErrorPropagationWitness :
    (uploadFileToS3 w5b.s3 "a.txt" "bucket-a").result =
      .error "Cannot access local file: a.txt. ENOENT: no such file or directory"
    ∧ run w5b ⟨"a.txt", "/srv/app/a.txt", "i-abc", "bucket-a", none⟩ =
      ⟨.failed "Cannot access local file: a.txt. ENOENT: no such file or directory", 0, 0⟩ := by
  refine ⟨rfl, ?_⟩
  have h := (runErrorPropagation w5b ⟨"a.txt", "/srv/app/a.txt", "i-abc", "bucket-a", none⟩).1
    "Cannot access local file: a.txt. ENOENT: no such file or directory" rfl
  simpa using h

/-- The world of the C6 counterexample and witness: all stages succeed and
the first poll already reports `Success` with stdout `ok`. -/
def w6 : World :=
  ⟨⟨.stats true, .ok "artifact-bytes", .ok (), 0⟩,
   ⟨.ok (some "cmd-1"), fun _ => .invocation (some "Success") (some "ok") none⟩⟩

/-- C6 inputs staging through bucket `bucket-a`. -/
def inputs6a : ActionInputs := ⟨"a.txt", "/srv/a.txt", "i-abc", "bucket-a", none⟩

/-- C6 inputs staging through bucket `bucket-b`. -/
def inputs6b : ActionInputs := ⟨"a.txt", "/srv/a.txt", "i-abc", "bucket-b", none⟩

/-- C6 counterexample: two invocations staging to different buckets produce
different staged locators, yet the orchestrator's return value is identical
in both runs — `run` resolves with no value, so no `TransferResult` embedding
the staged object's locator is returned. -/
theorem runReturnsNoLocator :
    (uploadFileToS3 w6.s3 "a.txt" "bucket-a").result =
      .ok ⟨"bucket-a", "github-actions-transfer/0-a.txt",
        "s3://bucket-a/github-actions-transfer/0-a.txt"⟩
    ∧ (uploadFileToS3 w6.s3 "a.txt" "bucket-b").result =
      .ok ⟨"bucket-b", "github-actions-transfer/0-a.txt",
        "s3://bucket-b/github-actions-transfer/0-a.txt"⟩
    ∧ run w6 inputs6a = run w6 inputs6b
    ∧ run w6 inputs6a = ⟨.success, 1, 1⟩ := by
  refine ⟨rfl, rfl, rfl, rfl⟩

/-- C6 (amended): when staging succeeds, dispatch succeeds and polling
resolves `Success` on the first poll, the orchestrator reports success and
the staged locator produced by staging appears in the dispatched command
script's copy step; but the orchestrator returns no record embedding the
staged object — `run` resolves with no value. -/
theorem runSuccessFlow (w : World) (inputs : ActionInputs)
    (hstat : w.s3.stat = .stats true)
    (hread : ∃ c, w.s3.readResult = .ok c)
    (hput : w.s3.putResult = .ok ())
    (hsend : ∃ cid, w.ssm.send = .ok (some cid) ∧ cid ≠ "")
    (hpoll : ∃ out err, w.ssm.replies 1 = .invocation (some "Success") out err) :
    ∃ u, (uploadFileToS3 w.s3 inputs.localPath inputs.intermediateS3).result = .ok u
      ∧ u.s3Uri = "s3://" ++ stripS3Scheme inputs.intermediateS3 ++ "/"
          ++ s3Key w.s3.now inputs.localPath
      ∧ ("aws s3 cp " ++ u.s3Uri ++ " " ++ inputs.remotePath) ∈
          (transferFileViaSSM w.ssm inputs.instanceId u inputs.remotePath).commands
      ∧ run w inputs = ⟨.success, 1, 1⟩ := by
  obtain ⟨c, hread⟩ := hread
  obtain ⟨cid, hsend, hcid⟩ := hsend
  obtain ⟨out, err, hpoll⟩ := hpoll
  have hup : uploadFileToS3 w.s3 inputs.localPath inputs.intermediateS3 =
      ⟨.ok ⟨stripS3Scheme inputs.intermediateS3, s3Key w.s3.now inputs.localPath,
        "s3://" ++ stripS3Scheme inputs.intermediateS3 ++ "/"
          ++ s3Key w.s3.now inputs.localPath⟩, 1⟩ := by
    unfold uploadFileToS3
    rw [hstat]
    dsimp only
    rw [hread, hput]
    rfl
  have hwait : waitForCommandCompletion w.ssm.replies cid 60 2000 =
      ⟨.ok ⟨cid, "Success", some (jsOr out "")⟩, 1, 0⟩ := by
    unfold waitForCommandCompletion
    rw [show (60 : Nat) = 59 + 1 from rfl]
    rw [pollAux]
    rw [hpoll]
    simp [jsOr]
  have htr : transferFileViaSSM w.ssm inputs.instanceId
      ⟨stripS3Scheme inputs.intermediateS3, s3Key w.s3.now inputs.localPath,
        "s3://" ++ stripS3Scheme inputs.intermediateS3 ++ "/"
          ++ s3Key w.s3.now inputs.localPath⟩ inputs.remotePath =
      ⟨buildCommands ("s3://" ++ stripS3Scheme inputs.intermediateS3 ++ "/"
          ++ s3Key w.s3.now inputs.localPath) inputs.remotePath,
        .ok ⟨cid, "Success", some (jsOr out "")⟩, 1, 0⟩ := by
    unfold transferFileViaSSM
    rw [hsend]
    dsimp only
    rw [if_neg (by simp [hcid])]
    simp only [Option.getD]
    rw [hwait]
  refine ⟨⟨stripS3Scheme inputs.intermediateS3, s3Key w.s3.now inputs.localPath,
    "s3://" ++ stripS3Scheme inputs.intermediateS3 ++ "/"
      ++ s3Key w.s3.now inputs.localPath⟩, ?_, rfl, ?_, ?_⟩
  · rw [hup]
  · rw [htr]
    simp [buildCommands]
  · unfold run
    dsimp only
    rw [hup]
    dsimp only
    rw [htr]

/-- C6 witness: in the all-success world the orchestrator reports success
after one put and one status query. -/
theorem runSuccessFlowWitness : run w6 inputs6a = ⟨.success, 1, 1⟩ := by
  obtain ⟨u, _, _, _, h⟩ := runSuccessFlow w6 inputs6a rfl ⟨"artifact-bytes", rfl⟩ rfl
    ⟨"cmd-1", rfl, by decide⟩ ⟨some "ok", none, rfl⟩
  exact h

/-- C7: when command submission succeeds but carries no command identifier
(absent, or empty and hence falsy in JS), the transfer fails with the
dispatch error reporting that no CommandId was returned, and the Completion
Poller is never invoked: zero status queries are issued. -/
theorem transferNoCommandId (env : SSMEnv) (instanceId : String)
    (s3Result : S3UploadResult) (remotePath : String)
    (h : env.send = .ok none ∨ env.send = .ok (some "")) :
    (transferFileViaSSM env instanceId s3Result remotePath).result =
      .error ("Failed to transfer file via SSM: "
        ++ "SSM command was sent but no CommandId was returned")
    ∧ (transferFileViaSSM env instanceId s3Result remotePath).statusQueries = 0 := by
  rcases h with h | h <;>
    · unfold transferFileViaSSM
      rw [h]
      dsimp only
      rw [if_pos (by simp)]
      exact ⟨rfl, rfl⟩

/-- C7 witness: a submission response with no CommandId fails dispatch and
issues no status query. -/
theorem transferNoCommandIdWitness :
    (transferFileViaSSM ⟨.ok none, fun _ => .notVisible⟩ "i-abc"
      ⟨"bucket-a", "k", "s3://bucket-a/k"⟩ "/srv/a.txt").result =
      .error ("Failed to transfer file via SSM: "
        ++ "SSM command was sent but no CommandId was returned")
    ∧ (transferFileViaSSM ⟨.ok none, fun _ => .notVisible⟩ "i-abc"
      ⟨"bucket-a", "k", "s3://bucket-a/k"⟩ "/srv/a.txt").statusQueries = 0 :=
  transferNoCommandId ⟨.ok none, fun _ => .notVisible⟩ "i-abc"
    ⟨"bucket-a", "k", "s3://bucket-a/k"⟩ "/srv/a.txt" (Or.inl rfl)

/-- C8: when the local path is missing (the stat call throws) or is not a
regular file, `uploadFileToS3` fails with the local-file error naming the
path and the underlying cause, and no S3 put is issued. -/
theorem uploadLocalFileError (env : S3Env) (localPath bucketName : String) :
    (∀ m, env.stat = .failure m →
      uploadFileToS3 env localPath bucketName =
        ⟨.error ("Cannot access local file: " ++ localPath ++ ". " ++ m), 0⟩)
    ∧ (env.stat = .stats false →
      uploadFileToS3 env localPath bucketName =
        ⟨.error ("Cannot access local file: " ++ localPath ++ ". "
          ++ localPath ++ " is not a file"), 0⟩) := by
  constructor
  · intro m hm
    unfold uploadFileToS3
    rw [hm]
  · intro hm
    unfold uploadFileToS3
    rw [hm]
    rfl

/-- C8 witness: a missing file and a directory both fail with the local-file
error and zero puts. -/
theorem uploadLocalFileErrorWitness :
    uploadFileToS3 ⟨.failure "ENOENT: no such file or directory", .ok "x", .ok (), 0⟩
        "missing.txt" "bucket-a" =
      ⟨.error ("Cannot access local file: missing.txt. "
        ++ "ENOENT: no such file or directory"), 0⟩
    ∧ uploadFileToS3 ⟨.stats false, .ok "x", .ok (), 0⟩ "somedir" "bucket-a" =
      ⟨.error ("Cannot access local file: somedir. " ++ "somedir is not a file"), 0⟩ := by
  constructor
  · exact (uploadLocalFileError ⟨.failure "ENOENT: no such file or directory",
      .ok "x", .ok (), 0⟩ "missing.txt" "bucket-a").1
      "ENOENT: no such file or directory" rfl
  · have := (uploadLocalFileError ⟨.stats false, .ok "x", .ok (), 0⟩
      "somedir" "bucket-a").2 rfl
    simpa using this

/-- C9: the staging key has the form
`github-actions-transfer/(timestamp)-(basename)`; the basename holds no
directory separator, the key ends with the basename, and two invocations
whose millisecond clocks differ derive distinct keys for the same path. -/
theorem s3KeyShapeAndUnique (now1 now2 : Nat) (localPath : String) (h : now1 ≠ now2) :
    s3Key now1 localPath =
      "github-actions-transfer/" ++ natToString now1 ++ "-" ++ basename localPath
    ∧ (∀ c ∈ (basename localPath).data, c ≠ '/')
    ∧ (∃ pre, s3Key now1 localPath = pre ++ basename localPath)
    ∧ s3Key now1 localPath ≠ s3Key now2 localPath :=
  ⟨rfl, basename_no_slash localPath, s3Key_endsWith now1 localPath,
    s3Key_ne now1 now2 localPath h⟩

/-- C9 witness: clocks 1 and 2 derive distinct keys for the same path. -/
theorem s3KeyShapeAndUniqueWitness :
    (1 : Nat) ≠ 2 ∧ s3Key 1 "dir/a.txt" ≠ s3Key 2 "dir/a.txt" :=
  ⟨by decide, (s3KeyShapeAndUnique 1 2 "dir/a.txt" (by decide)).2.2.2⟩

/-- C10: when the stat check passes but reading the file content fails, the
error raised is the staging-layer one (`Failed to upload file to S3:`), not
the local-file access error, and no put is issued even though the failure
happens before the put is attempted. -/
theorem uploadReadFailureIsStagingError (env : S3Env) (localPath bucketName m : String)
    (hstat : env.stat = .stats true) (hread : env.readResult = .error m) :
    uploadFileToS3 env localPath bucketName =
      ⟨.error ("Failed to upload file to S3: " ++ m), 0⟩ := by
  unfold uploadFileToS3
  rw [hstat]
  dsimp only
  rw [hread]
  rfl

/-- C10 witness: a read permission failure after a passing stat check is
reported as a staging failure with zero puts. -/
theorem uploadReadFailureWitness :
    uploadFileToS3 ⟨.stats true, .error "EACCES: permission denied", .ok (), 0⟩
        "a.txt" "bucket-a" =
      ⟨.error ("Failed to upload file to S3: " ++ "EACCES: permission denied"), 0⟩ :=
  uploadReadFailureIsStagingError
    ⟨.stats true, .error "EACCES: permission denied", .ok (), 0⟩
    "a.txt" "bucket-a" "EACCES: permission denied" rfl rfl
